import Mathlib

/-!
Verification of the memcached binary-protocol codec (`async-memcached-proto`).

This file is a shallow embedding of the Rust sources:
  * `src/code.rs`    — `Magic`, `Opcode`, `Status` wire tables;
  * `src/error.rs`   — `ProtoError`, `Error`;
  * `src/packet.rs`  — `PacketHeader`, `Extras`, `Packet`, `PacketRef` and
    their synchronous serialization (`SyncOps`);
  * `src/binary/packet.rs` — the legacy duplicate module (only the
    functions that differ from `src/packet.rs` are embedded separately:
    the zeroed `PacketHeader::request` / `PacketHeader::response`
    builders and the length-recomputing `Packet::new`).

Machine integers (`u8`/`u16`/`u32`/`u64`) are embedded as `Nat`; where the
Rust code performs an `as` cast the embedding takes the value modulo the
target width.  Byte streams are `List Nat`.  Fallible operations return
`Option`; `Packet.read_from`, whose body-buffer slicing can panic in the
source, returns an explicit three-outcome `ReadResult`.
-/

namespace MProto

/-- `Magic` from `src/code.rs`: `Request = 0x80`, `Response = 0x81`. -/
inductive Magic where
  | request
  | response
deriving DecidableEq

/-- Discriminant value of a `Magic`, as used by `magic as u8`. -/
def Magic.toU8 : Magic → Nat
  | .request => 0x80
  | .response => 0x81

/-- `Magic::from_u8` (derived `FromPrimitive`): only `0x80` and `0x81` are
recognized. -/
def Magic.fromU8 (b : Nat) : Option Magic :=
  if b = 0x80 then some .request
  else if b = 0x81 then some .response
  else none

/-- `Opcode` from `src/code.rs`, all 58 variants with their discriminants. -/
inductive Opcode where
  | get | set | add | replace | delete | increment | decrement | quit
  | flush | getQ | noOp | version | getK | getKQ | append | prepend
  | stat | setQ | addQ | replaceQ | deleteQ | incrementQ | decrementQ
  | quitQ | flushQ | appendQ | prependQ | verbosity | touch | gat | gatQ
  | saslListMechs | saslAuth | saslStep
  | rGet | rSet | rSetQ | rAppend | rAppendQ | rPrepend | rPrependQ
  | rDelete | rDeleteQ | rIncr | rIncrQ | rDecr | rDecrQ
  | setVBucket | getVBucket | delVBucket
  | tapConnect | tapMutation | tapDelete | tapFlush | tapOpaq
  | tapVBucketSet | tapCheckPointStart | tabCheckPointEnd
deriving DecidableEq

/-- Discriminant value of an `Opcode`, as used by `opcode as u8`. -/
def Opcode.toU8 : Opcode → Nat
  | .get => 0x00 | .set => 0x01 | .add => 0x02 | .replace => 0x03
  | .delete => 0x04 | .increment => 0x05 | .decrement => 0x06
  | .quit => 0x07 | .flush => 0x08 | .getQ => 0x09 | .noOp => 0x0a
  | .version => 0x0b | .getK => 0x0c | .getKQ => 0x0d | .append => 0x0e
  | .prepend => 0x0f | .stat => 0x10 | .setQ => 0x11 | .addQ => 0x12
  | .replaceQ => 0x13 | .deleteQ => 0x14 | .incrementQ => 0x15
  | .decrementQ => 0x16 | .quitQ => 0x17 | .flushQ => 0x18
  | .appendQ => 0x19 | .prependQ => 0x1a | .verbosity => 0x1b
  | .touch => 0x1c | .gat => 0x1d | .gatQ => 0x1e
  | .saslListMechs => 0x20 | .saslAuth => 0x21 | .saslStep => 0x22
  | .rGet => 0x30 | .rSet => 0x31 | .rSetQ => 0x32 | .rAppend => 0x33
  | .rAppendQ => 0x34 | .rPrepend => 0x35 | .rPrependQ => 0x36
  | .rDelete => 0x37 | .rDeleteQ => 0x38 | .rIncr => 0x39
  | .rIncrQ => 0x3a | .rDecr => 0x3b | .rDecrQ => 0x3c
  | .setVBucket => 0x3d | .getVBucket => 0x3e | .delVBucket => 0x3f
  | .tapConnect => 0x40 | .tapMutation => 0x41 | .tapDelete => 0x42
  | .tapFlush => 0x43 | .tapOpaq => 0x44 | .tapVBucketSet => 0x45
  | .tapCheckPointStart => 0x46 | .tabCheckPointEnd => 0x47

/-- `Opcode::from_u8` (derived `FromPrimitive`): the partial inverse of the
discriminant table. -/
def Opcode.fromU8 : Nat → Option Opcode
  | 0x00 => some .get | 0x01 => some .set | 0x02 => some .add
  | 0x03 => some .replace | 0x04 => some .delete | 0x05 => some .increment
  | 0x06 => some .decrement | 0x07 => some .quit | 0x08 => some .flush
  | 0x09 => some .getQ | 0x0a => some .noOp | 0x0b => some .version
  | 0x0c => some .getK | 0x0d => some .getKQ | 0x0e => some .append
  | 0x0f => some .prepend | 0x10 => some .stat | 0x11 => some .setQ
  | 0x12 => some .addQ | 0x13 => some .replaceQ | 0x14 => some .deleteQ
  | 0x15 => some .incrementQ | 0x16 => some .decrementQ
  | 0x17 => some .quitQ | 0x18 => some .flushQ | 0x19 => some .appendQ
  | 0x1a => some .prependQ | 0x1b => some .verbosity | 0x1c => some .touch
  | 0x1d => some .gat | 0x1e => some .gatQ | 0x20 => some .saslListMechs
  | 0x21 => some .saslAuth | 0x22 => some .saslStep | 0x30 => some .rGet
  | 0x31 => some .rSet | 0x32 => some .rSetQ | 0x33 => some .rAppend
  | 0x34 => some .rAppendQ | 0x35 => some .rPrepend
  | 0x36 => some .rPrependQ | 0x37 => some .rDelete
  | 0x38 => some .rDeleteQ | 0x39 => some .rIncr | 0x3a => some .rIncrQ
  | 0x3b => some .rDecr | 0x3c => some .rDecrQ | 0x3d => some .setVBucket
  | 0x3e => some .getVBucket | 0x3f => some .delVBucket
  | 0x40 => some .tapConnect | 0x41 => some .tapMutation
  | 0x42 => some .tapDelete | 0x43 => some .tapFlush
  | 0x44 => some .tapOpaq | 0x45 => some .tapVBucketSet
  | 0x46 => some .tapCheckPointStart | 0x47 => some .tabCheckPointEnd
  | _ => none

/-- `Status` from `src/code.rs` (the `KeyExits` spelling is the source's). -/
inductive Status where
  | noError | keyNotFound | keyExits | valueTooLarge | invalidArguments
  | itemNotStored | incrOrDecrOnNonNumericValue
  | vbucketBelongsToAnotherServer | authenticationError
  | authenticationContinue | unknownCommand | outOfMemory | notSupported
  | internalError | busy | temporaryFailure | authenticationRequired
  | authenticationFurtherStepRequired
deriving DecidableEq

/-- Discriminant value of a `Status`, as used by `status as u16`. -/
def Status.toU16 : Status → Nat
  | .noError => 0x0000
  | .keyNotFound => 0x0001
  | .keyExits => 0x0002
  | .valueTooLarge => 0x0003
  | .invalidArguments => 0x0004
  | .itemNotStored => 0x0005
  | .incrOrDecrOnNonNumericValue => 0x0006
  | .vbucketBelongsToAnotherServer => 0x0007
  | .authenticationError => 0x0008
  | .authenticationContinue => 0x0009
  | .unknownCommand => 0x0081
  | .outOfMemory => 0x0082
  | .notSupported => 0x0083
  | .internalError => 0x0084
  | .busy => 0x0085
  | .temporaryFailure => 0x0086
  | .authenticationRequired => 0x0020
  | .authenticationFurtherStepRequired => 0x0021

/-- `Status::desc` from `src/code.rs`: the fixed description strings. -/
def Status.desc : Status → String
  | .noError => "no error"
  | .keyNotFound => "key not found"
  | .keyExits => "key exists"
  | .valueTooLarge => "value too large"
  | .invalidArguments => "invalid arguments"
  | .itemNotStored => "item not stored"
  | .incrOrDecrOnNonNumericValue => "incr/Decr on non-numeric value"
  | .vbucketBelongsToAnotherServer => "the vbucket belongs to another server"
  | .authenticationError => "authentication error"
  | .authenticationContinue => "authentication continue"
  | .unknownCommand => "unknown command"
  | .outOfMemory => "out of memory"
  | .notSupported => "not supported"
  | .internalError => "internal error"
  | .busy => "busy"
  | .temporaryFailure => "temporary failure"
  | .authenticationRequired => "authentication required/not successful"
  | .authenticationFurtherStepRequired => "further authentication steps required"

/-- `ProtoError` from `src/error.rs`: status, fixed description, optional
caller-supplied detail. -/
structure ProtoError where
  status : Status
  desc : String
  detail : Option String
deriving DecidableEq

/-- `Error` from `src/error.rs`.  The `Io` variant's `std::io::Error`
payload plays no role in any claim and is abstracted away. -/
inductive Error where
  | io
  | proto (e : ProtoError)
deriving DecidableEq

/-- `ProtoError::from_status` from `src/error.rs`: fills `desc` from the
status's description table. -/
def ProtoError.from_status (status : Status) (detail : Option String) : ProtoError :=
  { status := status, desc := status.desc, detail := detail }

/-- `Status::ok_or` from `src/code.rs`: `NoError` maps to `Ok(())`, every
other status to `Err(Error::Proto(ProtoError::from_status(status, detail)))`. -/
def Status.ok_or (s : Status) (detail : Option String) : Except Error Unit :=
  match s with
  | .noError => .ok ()
  | status => .error (.proto (ProtoError.from_status status detail))

/-! ### Byte-stream primitives

Big-endian encoders (`byteorder::BigEndian` / `to_be_bytes`) and
exact-length readers over `List Nat` byte streams.  A read fails
(`none`) when the stream is too short, modelling `std::io::Read` /
`bytes::Buf` failure on an exhausted slice. -/

/-- One byte of a `u8` value (`write_u8`). -/
def be8 (x : Nat) : List Nat := [x % 256]

/-- Big-endian bytes of a `u16` value (`write_u16::<BigEndian>`). -/
def be16 (x : Nat) : List Nat := [x / 256 % 256, x % 256]

/-- Big-endian bytes of a `u32` value (`write_u32::<BigEndian>`). -/
def be32 (x : Nat) : List Nat :=
  [x / 16777216 % 256, x / 65536 % 256, x / 256 % 256, x % 256]

/-- Big-endian bytes of a `u64` value (`write_u64::<BigEndian>`). -/
def be64 (x : Nat) : List Nat :=
  [x / 72057594037927936 % 256, x / 281474976710656 % 256,
   x / 1099511627776 % 256, x / 4294967296 % 256,
   x / 16777216 % 256, x / 65536 % 256, x / 256 % 256, x % 256]

/-- `get_u8` / `read_u8`: consume one byte. -/
def readU8 : List Nat → Option (Nat × List Nat)
  | [] => none
  | b :: r => some (b, r)

/-- `get_u16` / `read_u16::<BigEndian>`: consume two bytes, big-endian. -/
def readU16 : List Nat → Option (Nat × List Nat)
  | b0 :: b1 :: r => some (b0 * 256 + b1, r)
  | _ => none

/-- `read_u32::<BigEndian>`: consume four bytes, big-endian. -/
def readU32 : List Nat → Option (Nat × List Nat)
  | b0 :: b1 :: b2 :: b3 :: r => some ((((b0 * 256 + b1) * 256 + b2) * 256 + b3), r)
  | _ => none

/-- `read_u64::<BigEndian>`: consume eight bytes, big-endian. -/
def readU64 : List Nat → Option (Nat × List Nat)
  | b0 :: b1 :: b2 :: b3 :: b4 :: b5 :: b6 :: b7 :: r =>
    some ((((((((b0 * 256 + b1) * 256 + b2) * 256 + b3) * 256 + b4) * 256
      + b5) * 256 + b6) * 256 + b7), r)
  | _ => none

/-- `read_exact` into an `n`-byte buffer: succeeds iff the stream holds at
least `n` bytes, consuming exactly `n`. -/
def readExact (n : Nat) (s : List Nat) : Option (List Nat × List Nat) :=
  if n ≤ s.length then some (s.take n, s.drop n) else none

/-! ### `PacketHeader` (`src/packet.rs`, duplicated in `src/binary/packet.rs`) -/

/-- The fixed 24-byte header of `src/packet.rs`.  Numeric fields are `Nat`
embeddings of `u16`/`u8`/`u32`/`u64`. -/
structure PacketHeader where
  magic : Magic
  opcode : Opcode
  key_len : Nat
  extras_len : Nat
  data_type : Nat
  vbucket_id_or_status : Nat
  body_len : Nat
  opq : Nat
  cas : Nat
deriving DecidableEq

/-- `PacketHeader::size()`: `1 + 1 + 2 + 1 + 1 + 2 + 4 + 4 + 8`. -/
def PacketHeader.size : Nat := 1 + 1 + 2 + 1 + 1 + 2 + 4 + 4 + 8

/-- Range constraints carried in Rust by the field types
(`u16`/`u8`/`u8`/`u16`/`u32`/`u32`/`u64`). -/
def PacketHeader.Valid (h : PacketHeader) : Prop :=
  h.key_len < 65536 ∧ h.extras_len < 256 ∧ h.data_type < 256 ∧
    h.vbucket_id_or_status < 65536 ∧ h.body_len < 4294967296 ∧
    h.opq < 4294967296 ∧ h.cas < 18446744073709551616

instance (h : PacketHeader) : Decidable h.Valid := by
  unfold PacketHeader.Valid; infer_instance

/-- `<PacketHeader as SyncOps>::write_to` from `src/packet.rs` (identical
to `PacketHeader::write_sync` in `src/binary/packet.rs`): the 24 header
bytes in fixed big-endian order. -/
def PacketHeader.writeBytes (h : PacketHeader) : List Nat :=
  h.magic.toU8 :: h.opcode.toU8 ::
    (be16 h.key_len ++ be8 h.extras_len ++ be8 h.data_type ++
     be16 h.vbucket_id_or_status ++ be32 h.body_len ++ be32 h.opq ++
     be64 h.cas)

/-- `PacketHeader::parse` from `src/packet.rs`: sequential big-endian
field extraction; fails (`InvalidData`) on an unrecognized magic or
opcode byte.  The source is documented to panic when fewer than 24 bytes
remain (every caller supplies exactly 24); the embedding returns `none`
there, and every theorem about `parse` supplies at least 24 bytes. -/
def PacketHeader.parse (buf : List Nat) : Option PacketHeader := do
  let (m, buf) ← readU8 buf
  let magic ← Magic.fromU8 m
  let (o, buf) ← readU8 buf
  let opcode ← Opcode.fromU8 o
  let (key_len, buf) ← readU16 buf
  let (extras_len, buf) ← readU8 buf
  let (data_type, buf) ← readU8 buf
  let (vb, buf) ← readU16 buf
  let (body_len, buf) ← readU32 buf
  let (opq, buf) ← readU32 buf
  let (cas, _) ← readU64 buf
  pure { magic := magic, opcode := opcode, key_len := key_len,
         extras_len := extras_len, data_type := data_type,
         vbucket_id_or_status := vb, body_len := body_len,
         opq := opq, cas := cas }

/-- `PacketHeader::request_from_payload` from `src/packet.rs`: request
header with lengths computed from the payload (`as u16`/`as u8`/`as u32`
casts truncate). -/
def PacketHeader.request_from_payload (opcode : Opcode) (vbucket_id : Nat)
    (opq : Nat) (cas : Nat) (extrasLen keyLen valLen : Nat) : PacketHeader :=
  { magic := .request, opcode := opcode,
    key_len := keyLen % 65536,
    extras_len := extrasLen % 256,
    data_type := 0,
    vbucket_id_or_status := vbucket_id,
    body_len := (keyLen + extrasLen + valLen) % 4294967296,
    opq := opq, cas := cas }

/-- `PacketHeader::response_from_payload` from `src/packet.rs`: response
header with lengths computed from the payload; note the source sets
`magic: Magic::Request`. -/
def PacketHeader.response_from_payload (opcode : Opcode) (status : Status)
    (opq : Nat) (cas : Nat) (extrasLen keyLen valLen : Nat) : PacketHeader :=
  { magic := .request, opcode := opcode,
    key_len := keyLen % 65536,
    extras_len := extrasLen % 256,
    data_type := 0,
    vbucket_id_or_status := status.toU16,
    body_len := (keyLen + extrasLen + valLen) % 4294967296,
    opq := opq, cas := cas }

/-- `PacketHeader::request` from `src/binary/packet.rs`: zeroed request
header builder. -/
def PacketHeader.request (opcode : Opcode) : PacketHeader :=
  { magic := .request, opcode := opcode, key_len := 0, extras_len := 0,
    data_type := 0, vbucket_id_or_status := 0, body_len := 0,
    opq := 0, cas := 0 }

/-- `PacketHeader::response` from `src/binary/packet.rs`: zeroed response
header builder; the source sets `magic: Magic::Response`. -/
def PacketHeader.response (opcode : Opcode) : PacketHeader :=
  { magic := .response, opcode := opcode, key_len := 0, extras_len := 0,
    data_type := 0, vbucket_id_or_status := 0, body_len := 0,
    opq := 0, cas := 0 }

/-! ### `Extras` (`src/packet.rs`) -/

/-- `Extras` from `src/packet.rs`: opcode-dependent payload between the
header and the key. -/
inductive Extras where
  | none
  | unknown (b : List Nat)
  | store (flags : Nat) (expiration : Nat)
  | counter (amount : Nat) (initial : Nat) (expiration : Nat)
  | flush (expiration : Nat)
  | verbosity (verbosity : Nat)
  | touch (expiration : Nat)
  | get (flags : Nat)
deriving DecidableEq

/-- `Extras::len` from `src/packet.rs`. -/
def Extras.len : Extras → Nat
  | .none => 0
  | .unknown b => b.length
  | .store _ _ => 4 + 4
  | .counter _ _ _ => 8 + 8 + 4
  | .flush _ => 4
  | .verbosity _ => 4
  | .touch _ => 4
  | .get _ => 4

/-- `Extras::write_sync` from `src/packet.rs`: numeric fields big-endian
in declaration order; `Unknown` writes its raw bytes. -/
def Extras.writeBytes : Extras → List Nat
  | .none => []
  | .unknown b => b
  | .store flags expiration => be32 flags ++ be32 expiration
  | .counter amount initial expiration =>
    be64 amount ++ be64 initial ++ be32 expiration
  | .flush expiration => be32 expiration
  | .verbosity v => be32 v
  | .touch expiration => be32 expiration
  | .get flags => be32 flags

/-- The seven extras shapes an opcode can select in `Extras::parse`. -/
inductive ExtrasKind where
  | store | get | counter | verbosity | touch | flush | unknown
deriving DecidableEq

/-- The opcode-class dispatch of the match in `Extras::parse`
(`src/packet.rs` lines 291-320): which extras shape each opcode selects;
every opcode not named by an arm falls to the `Unknown` arm. -/
def Opcode.extrasKind : Opcode → ExtrasKind
  | .set | .setQ | .add | .addQ | .replace | .replaceQ => .store
  | .get | .getQ | .getK | .getKQ => .get
  | .increment | .incrementQ | .decrement | .decrementQ => .counter
  | .verbosity => .verbosity
  | .touch | .gat | .gatQ => .touch
  | .flush => .flush
  | _ => .unknown

/-- `Extras::parse` from `src/packet.rs`: an empty buffer is always
`None`; otherwise the opcode class selects the shape, reading the numeric
fields big-endian from the front of the buffer (failing on a short read),
and any opcode outside the table yields `Unknown` with the whole buffer. -/
def Extras.parse (opcode : Opcode) (buf : List Nat) : Option Extras :=
  if buf = [] then some .none
  else
    match opcode.extrasKind with
    | .store => do
      let (flags, buf) ← readU32 buf
      let (expiration, _) ← readU32 buf
      pure (.store flags expiration)
    | .get => do
      let (flags, _) ← readU32 buf
      pure (.get flags)
    | .counter => do
      let (amount, buf) ← readU64 buf
      let (initial, buf) ← readU64 buf
      let (expiration, _) ← readU32 buf
      pure (.counter amount initial expiration)
    | .verbosity => do
      let (v, _) ← readU32 buf
      pure (.verbosity v)
    | .touch => do
      let (expiration, _) ← readU32 buf
      pure (.touch expiration)
    | .flush => do
      let (expiration, _) ← readU32 buf
      pure (.flush expiration)
    | .unknown => some (.unknown buf)

/-- Range constraints carried in Rust by the field types of each
`Extras` variant. -/
def Extras.Valid : Extras → Prop
  | .none => True
  | .unknown _ => True
  | .store flags expiration => flags < 4294967296 ∧ expiration < 4294967296
  | .counter amount initial expiration =>
    amount < 18446744073709551616 ∧ initial < 18446744073709551616 ∧
      expiration < 4294967296
  | .flush expiration => expiration < 4294967296
  | .verbosity v => v < 4294967296
  | .touch expiration => expiration < 4294967296
  | .get flags => flags < 4294967296

instance (e : Extras) : Decidable e.Valid := by
  cases e <;> (unfold Extras.Valid; infer_instance)

/-- The shape table of §3 of the spec: the extras variant matches the
opcode's class.  `None` matches every opcode (the empty-extras rule);
`Unknown` matches exactly the opcodes outside the table, and only with a
non-empty byte region. -/
def Extras.matchesShape (opcode : Opcode) : Extras → Prop
  | .none => True
  | .unknown b => opcode.extrasKind = .unknown ∧ b ≠ []
  | .store _ _ => opcode.extrasKind = .store
  | .counter _ _ _ => opcode.extrasKind = .counter
  | .flush _ => opcode.extrasKind = .flush
  | .verbosity _ => opcode.extrasKind = .verbosity
  | .touch _ => opcode.extrasKind = .touch
  | .get _ => opcode.extrasKind = .get

instance (op : Opcode) (e : Extras) : Decidable (Extras.matchesShape op e) := by
  cases e <;> (unfold Extras.matchesShape; infer_instance)

/-! ### `Packet` and `PacketRef` (`src/packet.rs`) -/

/-- `Packet` from `src/packet.rs`: header plus owned extras/key/value. -/
structure Packet where
  header : PacketHeader
  extras : Extras
  key : List Nat
  val : List Nat
deriving DecidableEq

/-- `Packet::request` from `src/packet.rs`: builds the header from the
payload (`key.len() as u16`, `extras.len() as u8`,
`(key.len() + extras.len() + val.len()) as u32`). -/
def Packet.request (opcode : Opcode) (vbucket_id : Nat) (opq : Nat)
    (cas : Nat) (extras : Extras) (key val : List Nat) : Packet :=
  { header :=
      { magic := .request, opcode := opcode,
        key_len := key.length % 65536,
        extras_len := extras.len % 256,
        data_type := 0,
        vbucket_id_or_status := vbucket_id,
        body_len := (key.length + extras.len + val.length) % 4294967296,
        opq := opq, cas := cas },
    extras := extras, key := key, val := val }

/-- `Packet::response` from `src/packet.rs`: like `request` but carrying
`status as u16`; the source sets `magic: Magic::Request`. -/
def Packet.response (opcode : Opcode) (status : Status) (opq : Nat)
    (cas : Nat) (extras : Extras) (key val : List Nat) : Packet :=
  { header :=
      { magic := .request, opcode := opcode,
        key_len := key.length % 65536,
        extras_len := extras.len % 256,
        data_type := 0,
        vbucket_id_or_status := status.toU16,
        body_len := (key.length + extras.len + val.length) % 4294967296,
        opq := opq, cas := cas },
    extras := extras, key := key, val := val }

/-- `Packet::new` from `src/packet.rs`: a plain constructor — the given
header is stored unchanged, with no length recomputation. -/
def Packet.new (header : PacketHeader) (extras : Extras)
    (key val : List Nat) : Packet :=
  { header := header, extras := extras, key := key, val := val }

/-- `Packet::new` from `src/binary/packet.rs`: overwrites the given
header's `extras_len`, `key_len` and `body_len` from the payload before
storing it. -/
def Packet.newBinary (header : PacketHeader) (extras : Extras)
    (key val : List Nat) : Packet :=
  { header :=
      { header with
        extras_len := extras.len % 256,
        key_len := key.length % 65536,
        body_len := (key.length + extras.len + val.length) % 4294967296 },
    extras := extras, key := key, val := val }

/-- One observable action on the write channel: a chunk of bytes handed
to `write`/`write_all`, or a `flush` call. -/
inductive WEvent where
  | chunk (b : List Nat)
  | flushed
deriving DecidableEq

/-- The bytes a sequence of write events puts on the channel. -/
def eventsBytes (l : List WEvent) : List Nat :=
  match l with
  | [] => []
  | .chunk b :: r => b ++ eventsBytes r
  | .flushed :: r => eventsBytes r

/-- `<Packet as SyncOps>::write_to` from `src/packet.rs` as its channel
trace: header bytes, extras bytes, key, value, then a flush. -/
def Packet.write_to (p : Packet) : List WEvent :=
  [.chunk p.header.writeBytes, .chunk p.extras.writeBytes,
   .chunk p.key, .chunk p.val, .flushed]

/-- The bytes `<Packet as SyncOps>::write_to` puts on the channel:
header, extras, key, value, in that order. -/
def Packet.writeBytes (p : Packet) : List Nat :=
  p.header.writeBytes ++ p.extras.writeBytes ++ p.key ++ p.val

/-- Outcome of `Packet::read_from`: a packet plus the unconsumed stream,
an `io::Error` return, or a panic (the `BytesMut::split_to`
out-of-bounds panic). -/
inductive ReadResult where
  | ok (p : Packet) (rest : List Nat)
  | err
  | panicked
deriving DecidableEq

/-- `<Packet as SyncOps>::read_from` from `src/packet.rs`: read exactly
24 header bytes and parse them; read exactly `body_len` body bytes;
`split_to(extras_len)` (panics when `extras_len > body_len`), parse the
extras region (an error return propagates before the key split);
`split_to(key_len)` (panics when `key_len` exceeds the remaining bytes);
the remainder is the value. -/
def Packet.read_from (s : List Nat) : ReadResult :=
  match readExact PacketHeader.size s with
  | Option.none => .err
  | some (hbuf, s1) =>
    match PacketHeader.parse hbuf with
    | Option.none => .err
    | some h =>
      match readExact h.body_len s1 with
      | Option.none => .err
      | some (body, s2) =>
        if h.extras_len ≤ body.length then
          match Extras.parse h.opcode (body.take h.extras_len) with
          | Option.none => .err
          | some extras =>
            let rest := body.drop h.extras_len
            if h.key_len ≤ rest.length then
              .ok { header := h, extras := extras,
                    key := rest.take h.key_len,
                    val := rest.drop h.key_len } s2
            else .panicked
        else .panicked

/-- `PacketRef` from `src/packet.rs`: the borrowed packet form.  The
borrows are embedded as the borrowed values themselves. -/
structure PacketRef where
  header : PacketHeader
  extras : Extras
  key : List Nat
  val : List Nat

/-- `PacketRef::new` from `src/packet.rs`. -/
def PacketRef.new (header : PacketHeader) (extras : Extras)
    (key val : List Nat) : PacketRef :=
  { header := header, extras := extras, key := key, val := val }

/-- `<PacketRef as SyncOps>::write_to` from `src/packet.rs` as its
channel trace: header bytes, extras bytes, key, value — and no flush. -/
def PacketRef.write_to (p : PacketRef) : List WEvent :=
  [.chunk p.header.writeBytes, .chunk p.extras.writeBytes,
   .chunk p.key, .chunk p.val]

/-! ### Helper lemmas -/

theorem magic_fromU8_toU8 (m : Magic) : Magic.fromU8 m.toU8 = some m := by
  cases m <;> rfl

theorem opcode_fromU8_toU8 (o : Opcode) : Opcode.fromU8 o.toU8 = some o := by
  cases o <;> rfl

theorem Status.toU16_lt (s : Status) : s.toU16 < 65536 := by
  cases s <;> decide

theorem readU16_be16 (x : Nat) (r : List Nat) (hx : x < 65536) :
    readU16 (be16 x ++ r) = some (x, r) := by
  simp only [be16, readU16, List.cons_append, List.nil_append,
    Option.some.injEq, Prod.mk.injEq, and_true]
  omega

theorem readU32_be32 (x : Nat) (r : List Nat) (hx : x < 4294967296) :
    readU32 (be32 x ++ r) = some (x, r) := by
  simp only [be32, readU32, List.cons_append, List.nil_append,
    Option.some.injEq, Prod.mk.injEq, and_true]
  omega

theorem readU32_be32_nil (x : Nat) (hx : x < 4294967296) :
    readU32 (be32 x) = some (x, []) := by
  have := readU32_be32 x [] hx
  simpa using this

theorem readU64_be64 (x : Nat) (r : List Nat) (hx : x < 18446744073709551616) :
    readU64 (be64 x ++ r) = some (x, r) := by
  simp only [be64, readU64, List.cons_append, List.nil_append,
    Option.some.injEq, Prod.mk.injEq, and_true]
  omega

theorem readExact_append {n : Nat} (a r : List Nat) (h : a.length = n) :
    readExact n (a ++ r) = some (a, r) := by
  subst h
  simp [readExact, List.take_left, List.drop_left]

theorem readExact_all (s : List Nat) : readExact s.length s = some (s, []) := by
  simpa using readExact_append s [] rfl

theorem header_writeBytes_length (h : PacketHeader) :
    h.writeBytes.length = 24 := by
  simp [PacketHeader.writeBytes, be16, be8, be32, be64]

theorem header_parse_writeBytes (h : PacketHeader) (hv : h.Valid) :
    PacketHeader.parse h.writeBytes = some h := by
  obtain ⟨magic, opcode, key_len, extras_len, data_type, vb, body_len, opq, cas⟩ := h
  obtain ⟨h1, h2, h3, h4, h5, h6, h7⟩ := hv
  dsimp only at h1 h2 h3 h4 h5 h6 h7
  simp only [PacketHeader.writeBytes, be16, be8, be32, be64,
    List.cons_append, List.nil_append]
  simp [PacketHeader.parse, readU8, readU16, readU32, readU64,
    magic_fromU8_toU8, opcode_fromU8_toU8, Option.bind,
    PacketHeader.mk.injEq]
  omega

theorem extras_writeBytes_length (e : Extras) : e.writeBytes.length = e.len := by
  cases e <;> simp [Extras.writeBytes, Extras.len, be32, be64]

theorem extras_parse_writeBytes (op : Opcode) (e : Extras)
    (hm : e.matchesShape op) (hv : e.Valid) :
    Extras.parse op e.writeBytes = some e := by
  cases e with
  | none => simp [Extras.parse, Extras.writeBytes]
  | unknown b =>
    obtain ⟨hk, hb⟩ := hm
    simp [Extras.parse, Extras.writeBytes, hk, hb]
  | store flags expiration =>
    simp only [Extras.matchesShape] at hm
    obtain ⟨hf, he⟩ := hv
    simp only [Extras.parse, Extras.writeBytes, hm]
    rw [if_neg (by simp [be32])]
    rw [readU32_be32 _ _ hf]
    simp only [Option.bind_eq_bind, Option.some_bind]
    rw [readU32_be32_nil _ he]
    rfl
  | counter amount initial expiration =>
    simp only [Extras.matchesShape] at hm
    obtain ⟨ha, hi, he⟩ := hv
    simp only [Extras.parse, Extras.writeBytes, hm]
    rw [if_neg (by simp [be64])]
    rw [List.append_assoc, readU64_be64 _ _ ha]
    simp only [Option.bind_eq_bind, Option.some_bind]
    rw [readU64_be64 _ _ hi]
    simp only [Option.some_bind]
    rw [readU32_be32_nil _ he]
    rfl
  | flush expiration =>
    simp only [Extras.matchesShape] at hm
    simp only [Extras.parse, Extras.writeBytes, hm]
    rw [if_neg (by simp [be32])]
    rw [readU32_be32_nil _ hv]
    rfl
  | verbosity v =>
    simp only [Extras.matchesShape] at hm
    simp only [Extras.parse, Extras.writeBytes, hm]
    rw [if_neg (by simp [be32])]
    rw [readU32_be32_nil _ hv]
    rfl
  | touch expiration =>
    simp only [Extras.matchesShape] at hm
    simp only [Extras.parse, Extras.writeBytes, hm]
    rw [if_neg (by simp [be32])]
    rw [readU32_be32_nil _ hv]
    rfl
  | get flags =>
    simp only [Extras.matchesShape] at hm
    simp only [Extras.parse, Extras.writeBytes, hm]
    rw [if_neg (by simp [be32])]
    rw [readU32_be32_nil _ hv]
    rfl

/-- Core round-trip lemma: a packet whose header lengths agree with its
payload, whose extras shape matches its opcode, and whose numeric fields
are in range, is recovered exactly by `read_from` from its own
`write_to` bytes, consuming the whole stream. -/
theorem Packet.read_from_writeBytes (p : Packet)
    (hh : p.header.Valid)
    (hk : p.header.key_len = p.key.length)
    (he : p.header.extras_len = p.extras.len)
    (hb : p.header.body_len = p.extras.len + p.key.length + p.val.length)
    (hm : p.extras.matchesShape p.header.opcode)
    (hev : p.extras.Valid) :
    Packet.read_from p.writeBytes = .ok p [] := by
  obtain ⟨h, e, k, v⟩ := p
  dsimp only at hh hk he hb hm hev
  have heB : e.writeBytes.length = e.len := extras_writeBytes_length e
  have hhB : h.writeBytes.length = PacketHeader.size := by
    rw [header_writeBytes_length]; rfl
  have hbodyLen : (e.writeBytes ++ (k ++ v)).length = h.body_len := by
    simp [heB, hb]; omega
  have hel : h.extras_len = e.writeBytes.length := by rw [heB, he]
  unfold Packet.writeBytes Packet.read_from
  dsimp only
  rw [List.append_assoc, List.append_assoc, readExact_append _ _ hhB]
  dsimp only
  rw [header_parse_writeBytes h hh]
  dsimp only
  rw [← hbodyLen, readExact_all]
  dsimp only
  rw [if_pos (by rw [hel]; simp)]
  rw [hel, List.take_left, List.drop_left]
  rw [extras_parse_writeBytes _ _ hm hev]
  dsimp only
  rw [if_pos (by rw [hk]; simp)]
  rw [hk, List.take_left, List.drop_left]

/-- Closed form of `PacketHeader.parse` on a stream of at least 24
explicit bytes: only the magic and opcode lookups can fail. -/
theorem PacketHeader.parse_cons24 (b0 b1 b2 b3 b4 b5 b6 b7 b8 b9 b10 b11
    b12 b13 b14 b15 b16 b17 b18 b19 b20 b21 b22 b23 : Nat) (r : List Nat) :
    PacketHeader.parse (b0 :: b1 :: b2 :: b3 :: b4 :: b5 :: b6 :: b7 ::
        b8 :: b9 :: b10 :: b11 :: b12 :: b13 :: b14 :: b15 :: b16 :: b17 ::
        b18 :: b19 :: b20 :: b21 :: b22 :: b23 :: r) =
      (Magic.fromU8 b0).bind fun magic =>
        (Opcode.fromU8 b1).bind fun opcode =>
          some { magic := magic, opcode := opcode,
                 key_len := b2 * 256 + b3,
                 extras_len := b4, data_type := b5,
                 vbucket_id_or_status := b6 * 256 + b7,
                 body_len := ((b8 * 256 + b9) * 256 + b10) * 256 + b11,
                 opq := ((b12 * 256 + b13) * 256 + b14) * 256 + b15,
                 cas := ((((((b16 * 256 + b17) * 256 + b18) * 256 + b19)
                   * 256 + b20) * 256 + b21) * 256 + b22) * 256 + b23 } :=
  rfl

/-! ### Claim theorems -/

/-- C1: for every `Packet` constructed via `Packet::request` or
`Packet::response` whose extras variant matches the opcode's shape class
and whose key, extras and value lengths fit the `u16`/`u8`/`u32` header
fields (the remaining numeric arguments being in their Rust types'
ranges), serializing with `write_to` and parsing the produced bytes back
with `read_from` yields a packet equal to the original, consuming the
whole stream. -/
theorem c1_packet_write_read_round_trip (op : Opcode) (vb opq cas : Nat)
    (st : Status) (e : Extras) (key val : List Nat)
    (hvb : vb < 65536) (hopq : opq < 4294967296)
    (hcas : cas < 18446744073709551616)
    (hm : e.matchesShape op) (hev : e.Valid)
    (hk : key.length < 65536) (hex : e.len < 256)
    (hb : key.length + e.len + val.length < 4294967296) :
    Packet.read_from (Packet.request op vb opq cas e key val).writeBytes
        = .ok (Packet.request op vb opq cas e key val) [] ∧
      Packet.read_from (Packet.response op st opq cas e key val).writeBytes
        = .ok (Packet.response op st opq cas e key val) [] := by
  constructor
  · apply Packet.read_from_writeBytes
    · refine ⟨?_, ?_, ?_, ?_, ?_, ?_, ?_⟩ <;> simp [Packet.request] <;> omega
    · simp [Packet.request]; omega
    · simp [Packet.request]; omega
    · simp [Packet.request]; omega
    · exact hm
    · exact hev
  · apply Packet.read_from_writeBytes
    · have := Status.toU16_lt st
      refine ⟨?_, ?_, ?_, ?_, ?_, ?_, ?_⟩ <;> simp [Packet.response] <;> omega
    · simp [Packet.response]; omega
    · simp [Packet.response]; omega
    · simp [Packet.response]; omega
    · exact hm
    · exact hev

/-- Witness for C1 at a concrete `Set` request/response with `Store`
extras, key `[97]` and value `[98]`. -/
theorem c1_witness :
    (Extras.store 1 2).matchesShape Opcode.set ∧
      Packet.read_from (Packet.request .set 0 0 0 (.store 1 2) [97] [98]).writeBytes
          = .ok (Packet.request .set 0 0 0 (.store 1 2) [97] [98]) [] ∧
      Packet.read_from
          (Packet.response .set .noError 0 0 (.store 1 2) [97] [98]).writeBytes
          = .ok (Packet.response .set .noError 0 0 (.store 1 2) [97] [98]) [] := by
  have h := c1_packet_write_read_round_trip .set 0 0 0 .noError (.store 1 2)
    [97] [98] (by decide) (by decide) (by decide) (by decide) (by decide)
    (by decide) (by decide) (by decide)
  exact ⟨by decide, h.1, h.2⟩

/-- C2: encoding any `PacketHeader` produces exactly 24 bytes;
`PacketHeader::size()` equals 24; and (for field values within their
Rust types' ranges) parsing those 24 bytes recovers a header equal to
the original, each field read big-endian at its fixed offset. -/
theorem c2_header_wire_layout (h : PacketHeader) :
    PacketHeader.size = 24 ∧ h.writeBytes.length = 24 ∧
      (h.Valid → PacketHeader.parse h.writeBytes = some h) :=
  ⟨rfl, header_writeBytes_length h, fun hv => header_parse_writeBytes h hv⟩

/-- Witness for C2 at a concrete header. -/
theorem c2_witness :
    (PacketHeader.mk .request .get 1 2 0 3 10 7 9).Valid ∧
      PacketHeader.parse (PacketHeader.mk .request .get 1 2 0 3 10 7 9).writeBytes
        = some (PacketHeader.mk .request .get 1 2 0 3 10 7 9) :=
  ⟨by decide,
    (c2_header_wire_layout (PacketHeader.mk .request .get 1 2 0 3 10 7 9)).2.2
      (by decide)⟩

/-- C3 (amended): for every packet built via `Packet::request`,
`Packet::response`, or the binary module's `Packet::new`, with key,
extras and value lengths fitting the `u16`/`u8`/`u32` header fields, the
header satisfies `key_len = len(key)`, `extras_len = extras.len()` and
`body_len = key_len + extras_len + len(val)`; the top-level
`Packet::new` of `src/packet.rs` stores the caller's header unchanged
and so is excluded. -/
theorem c3_body_length_invariant (op : Opcode) (vb opq cas : Nat)
    (st : Status) (h : PacketHeader) (e : Extras) (key val : List Nat)
    (hk : key.length < 65536) (hex : e.len < 256)
    (hb : key.length + e.len + val.length < 4294967296) :
    ((Packet.request op vb opq cas e key val).header.key_len = key.length ∧
     (Packet.request op vb opq cas e key val).header.extras_len = e.len ∧
     (Packet.request op vb opq cas e key val).header.body_len =
       (Packet.request op vb opq cas e key val).header.key_len +
       (Packet.request op vb opq cas e key val).header.extras_len + val.length) ∧
    ((Packet.response op st opq cas e key val).header.key_len = key.length ∧
     (Packet.response op st opq cas e key val).header.extras_len = e.len ∧
     (Packet.response op st opq cas e key val).header.body_len =
       (Packet.response op st opq cas e key val).header.key_len +
       (Packet.response op st opq cas e key val).header.extras_len + val.length) ∧
    ((Packet.newBinary h e key val).header.key_len = key.length ∧
     (Packet.newBinary h e key val).header.extras_len = e.len ∧
     (Packet.newBinary h e key val).header.body_len =
       (Packet.newBinary h e key val).header.key_len +
       (Packet.newBinary h e key val).header.extras_len + val.length) := by
  refine ⟨⟨?_, ?_, ?_⟩, ⟨?_, ?_, ?_⟩, ⟨?_, ?_, ?_⟩⟩ <;>
    simp [Packet.request, Packet.response, Packet.newBinary] <;> omega

/-- Witness for C3 at a concrete `Set` packet (key 3 bytes, `Store`
extras 8 bytes, value 5 bytes: `body_len = 16`). -/
theorem c3_witness :
    ([100, 101, 102] : List Nat).length < 65536 ∧
      (Packet.request .set 0 0 0 (.store 0 0) [100, 101, 102]
          [1, 2, 3, 4, 5]).header.body_len = 3 + 8 + 5 :=
  ⟨by decide,
    by
      have h := c3_body_length_invariant .set 0 0 0 .noError
        (PacketHeader.request .noOp) (.store 0 0) [100, 101, 102]
        [1, 2, 3, 4, 5] (by decide) (by decide) (by decide)
      rw [h.1.2.2, h.1.1, h.1.2.1]; decide⟩

/-- Counterexample to C3 as stated: `Packet::new` of `src/packet.rs`
stores the caller's header unchanged, so building a packet with a
zeroed header and a one-byte key leaves `key_len = 0 ≠ 1 = len(key)`. -/
theorem c3_counterexample :
    (Packet.new (PacketHeader.request .noOp) Extras.none [42] []).header.key_len ≠
      (Packet.new (PacketHeader.request .noOp) Extras.none [42] []).key.length := by
  decide

/-- C4: for every 24-byte buffer, if the magic byte is outside
`{0x80, 0x81}` or the opcode byte is unrecognized then
`PacketHeader::parse` returns the `InvalidData` error (embedded as
`none`) — the total embedding also shows it does not panic on such
buffers — and if both bytes are recognized then `parse` succeeds. -/
theorem c4_malformed_header_decode
    (b0 b1 b2 b3 b4 b5 b6 b7 b8 b9 b10 b11 b12 b13 b14 b15 b16 b17 b18
      b19 b20 b21 b22 b23 : Nat) :
    (¬(b0 = 0x80 ∨ b0 = 0x81) →
      PacketHeader.parse [b0, b1, b2, b3, b4, b5, b6, b7, b8, b9, b10, b11,
        b12, b13, b14, b15, b16, b17, b18, b19, b20, b21, b22, b23] = none) ∧
    (Opcode.fromU8 b1 = none →
      PacketHeader.parse [b0, b1, b2, b3, b4, b5, b6, b7, b8, b9, b10, b11,
        b12, b13, b14, b15, b16, b17, b18, b19, b20, b21, b22, b23] = none) ∧
    ((b0 = 0x80 ∨ b0 = 0x81) → (Opcode.fromU8 b1).isSome →
      (PacketHeader.parse [b0, b1, b2, b3, b4, b5, b6, b7, b8, b9, b10, b11,
        b12, b13, b14, b15, b16, b17, b18, b19, b20, b21, b22,
        b23]).isSome) := by
  refine ⟨?_, ?_, ?_⟩
  · intro hmag
    push_neg at hmag
    have hm : Magic.fromU8 b0 = none := by
      simp [Magic.fromU8, hmag.1, hmag.2]
    rw [PacketHeader.parse_cons24, hm, Option.none_bind]
  · intro hop
    rw [PacketHeader.parse_cons24]
    cases Magic.fromU8 b0 <;> simp [hop]
  · intro hmag hop
    obtain ⟨o, ho⟩ := Option.isSome_iff_exists.mp hop
    have hm : (Magic.fromU8 b0).isSome := by
      rcases hmag with h | h <;> simp [Magic.fromU8, h]
    obtain ⟨m, hmm⟩ := Option.isSome_iff_exists.mp hm
    rw [PacketHeader.parse_cons24, hmm, Option.some_bind, ho,
      Option.some_bind]
    rfl

/-- Witness for C4: an all-zero 24-byte buffer has magic `0x00` and
fails to parse; a buffer with magic `0x80` and opcode `0x01` parses. -/
theorem c4_witness :
    PacketHeader.parse [0, 0, 0, 0, 0, 0, 0, 0, 0, 0, 0, 0, 0, 0, 0, 0,
        0, 0, 0, 0, 0, 0, 0, 0] = none ∧
      (PacketHeader.parse [0x80, 1, 0, 0, 0, 0, 0, 0, 0, 0, 0, 0, 0, 0,
        0, 0, 0, 0, 0, 0, 0, 0, 0, 0]).isSome :=
  ⟨(c4_malformed_header_decode 0 0 0 0 0 0 0 0 0 0 0 0 0 0 0 0 0 0 0 0
      0 0 0 0).1 (by decide),
   (c4_malformed_header_decode 0x80 1 0 0 0 0 0 0 0 0 0 0 0 0 0 0 0 0 0
      0 0 0 0 0).2.2 (Or.inl rfl) (by decide)⟩

/-- C5: `Extras::parse` is a pure function of the opcode and the byte
slice (it is a Lean function of exactly those two arguments); parsing an
empty slice yields `Extras::None` for every opcode, and for every opcode
outside the shape table (those dispatched to the `Unknown` arm), parsing
a non-empty slice yields `Extras::Unknown` holding exactly the input
bytes. -/
theorem c5_extras_decode_rules (op : Opcode) (buf : List Nat) :
    Extras.parse op [] = some Extras.none ∧
      (op.extrasKind = .unknown → buf ≠ [] →
        Extras.parse op buf = some (Extras.unknown buf)) := by
  constructor
  · simp [Extras.parse]
  · intro hk hb
    simp [Extras.parse, hb, hk]

/-- Witness for C5: `Stat` is outside the shape table and a two-byte
region decodes to `Unknown [1, 2]`; the empty region decodes to `None`
even for `Set`, which has a defined non-empty shape. -/
theorem c5_witness :
    Extras.parse .set [] = some Extras.none ∧
      Extras.parse .stat [1, 2] = some (Extras.unknown [1, 2]) :=
  ⟨(c5_extras_decode_rules .set [1]).1,
   (c5_extras_decode_rules .stat [1, 2]).2 (by decide) (by decide)⟩

/-- C6: for every `Extras` variant whose shape matches the opcode's
class (and whose numeric fields are in their Rust types' ranges),
decoding the encoded bytes with that opcode recovers the variant
exactly, and the encoded length equals `Extras::len` — the variant's
fixed size, or the carried byte count for `Unknown`. -/
theorem c6_extras_round_trip (op : Opcode) (e : Extras)
    (hm : e.matchesShape op) (hv : e.Valid) :
    Extras.parse op e.writeBytes = some e ∧ e.writeBytes.length = e.len :=
  ⟨extras_parse_writeBytes op e hm hv, extras_writeBytes_length e⟩

/-- Witness for C6 at `Store` extras under opcode `Set`. -/
theorem c6_witness :
    (Extras.store 5 6).matchesShape Opcode.set ∧
      Extras.parse .set (Extras.store 5 6).writeBytes = some (Extras.store 5 6) ∧
      (Extras.store 5 6).writeBytes.length = (Extras.store 5 6).len := by
  have h := c6_extras_round_trip .set (.store 5 6) (by decide) (by decide)
  exact ⟨by decide, h.1, h.2⟩

/-- C7: `Status::ok_or` maps `NoError` to `Ok(())` for every detail, and
every other status with any detail to an error carrying a `ProtoError`
whose status is that status, whose description is the status's fixed
description string, and whose detail is the given detail. -/
theorem c7_status_mapping (s : Status) (d : Option String) :
    Status.ok_or .noError d = .ok () ∧
      (s ≠ .noError →
        Status.ok_or s d =
          .error (.proto { status := s, desc := s.desc, detail := d })) := by
  constructor
  · rfl
  · intro hs
    cases s <;> first | exact absurd rfl hs | rfl

/-- Witness for C7 at `KeyNotFound` with detail `"k"`. -/
theorem c7_witness :
    Status.ok_or .noError (some "k") = .ok () ∧
      Status.ok_or .keyNotFound (some "k") =
        .error (.proto { status := .keyNotFound, desc := "key not found",
                         detail := some "k" }) :=
  ⟨(c7_status_mapping .keyNotFound (some "k")).1,
   (c7_status_mapping .keyNotFound (some "k")).2 (by decide)⟩

/-- C8 (amended): the payload-computing response builders —
`PacketHeader::response_from_payload` and `Packet::response` — encode
`magic = Request` (0x80) while carrying the `Status` value reinterpreted
as the 16-bit vbucket/status field; the zeroed response header builder
`PacketHeader::response` of the binary module instead sets
`magic = Response` with a zeroed status field. -/
theorem c8_response_builder_magic (op : Opcode) (st : Status)
    (opq cas eLen kLen vLen : Nat) (e : Extras) (k v : List Nat) :
    (PacketHeader.response_from_payload op st opq cas eLen kLen vLen).magic
        = .request ∧
      (PacketHeader.response_from_payload op st opq cas eLen kLen
          vLen).vbucket_id_or_status = st.toU16 ∧
      (Packet.response op st opq cas e k v).header.magic = .request ∧
      (Packet.response op st opq cas e k v).header.vbucket_id_or_status
        = st.toU16 ∧
      (PacketHeader.response op).magic = .response ∧
      (PacketHeader.response op).vbucket_id_or_status = 0 :=
  ⟨rfl, rfl, rfl, rfl, rfl, rfl⟩

/-- Counterexample to C8 as stated: the zeroed response header builder
(`PacketHeader::response` in `src/binary/packet.rs`) encodes
`magic = Response`, not `Request`, so not every response builder encodes
`Request`. -/
theorem c8_counterexample :
    (PacketHeader.response .noOp).magic = Magic.response ∧
      Magic.response ≠ Magic.request := by
  decide

/-- C9 (amended): `Packet::write_to` emits header bytes, then extras
bytes, then key, then value, in that order, followed by a flush of the
channel; `PacketRef::write_to` emits the same bytes in the same order
but performs no flush, so the two forms share the byte contract and
differ on the flush. -/
theorem c9_write_order_and_flush (p : Packet) (r : PacketRef) :
    p.write_to = [.chunk p.header.writeBytes, .chunk p.extras.writeBytes,
        .chunk p.key, .chunk p.val, .flushed] ∧
      eventsBytes p.write_to = p.writeBytes ∧
      r.write_to = [.chunk r.header.writeBytes, .chunk r.extras.writeBytes,
        .chunk r.key, .chunk r.val] ∧
      WEvent.flushed ∉ r.write_to ∧
      eventsBytes (PacketRef.new p.header p.extras p.key p.val).write_to
        = p.writeBytes := by
  refine ⟨rfl, ?_, rfl, ?_, ?_⟩
  · simp [Packet.write_to, Packet.writeBytes, eventsBytes]
  · simp [PacketRef.write_to, eventsBytes]
  · simp [PacketRef.write_to, PacketRef.new, Packet.writeBytes, eventsBytes]

/-- Counterexample to C9 as stated: writing a `PacketRef` never flushes
the channel, while writing the equivalent owned `Packet` does, so the
two forms do not satisfy the same header-extras-key-value-flush
contract. -/
theorem c9_counterexample :
    WEvent.flushed ∉
        (PacketRef.new (PacketHeader.request .noOp) Extras.none [] []).write_to ∧
      WEvent.flushed ∈
        (Packet.new (PacketHeader.request .noOp) Extras.none [] []).write_to := by
  decide

/-- C10 (amended): for every input stream whose first 24 bytes parse as
a header and which supplies at least `body_len` further bytes, provided
the extras region — the first `min(extras_len, body_len)` body bytes —
parses under the header's opcode: if `extras_len + key_len ≤ body_len`
then `read_from` consumes exactly `24 + body_len` bytes and returns the
packet with key and value taken at the cumulative offsets; if
`extras_len + key_len > body_len` the body-buffer slicing panics
instead of returning a malformed-packet error. -/
theorem c10_read_path_precondition (s : List Nat) (h : PacketHeader)
    (ex : Extras)
    (hparse : PacketHeader.parse (s.take 24) = some h)
    (hlen : 24 + h.body_len ≤ s.length)
    (hex : Extras.parse h.opcode
      (((s.drop 24).take h.body_len).take h.extras_len) = some ex) :
    (h.extras_len + h.key_len ≤ h.body_len →
      Packet.read_from s =
        .ok { header := h, extras := ex,
              key := (((s.drop 24).take h.body_len).drop
                h.extras_len).take h.key_len,
              val := (((s.drop 24).take h.body_len).drop
                h.extras_len).drop h.key_len }
          (s.drop (24 + h.body_len))) ∧
    (h.body_len < h.extras_len + h.key_len →
      Packet.read_from s = .panicked) := by
  have hre : readExact PacketHeader.size s = some (s.take 24, s.drop 24) := by
    simp only [readExact, PacketHeader.size]
    rw [if_pos (by omega)]
  have hre2 : readExact h.body_len (s.drop 24) =
      some ((s.drop 24).take h.body_len, (s.drop 24).drop h.body_len) := by
    unfold readExact
    rw [if_pos (by simp [List.length_drop]; omega)]
  have hblen : ((s.drop 24).take h.body_len).length = h.body_len := by
    simp [List.length_take, List.length_drop]
    omega
  have hrest : (((s.drop 24).take h.body_len).drop h.extras_len).length =
      h.body_len - h.extras_len := by
    simp [List.length_drop, hblen]
  unfold Packet.read_from
  rw [hre]
  dsimp only
  rw [hparse]
  dsimp only
  rw [hre2]
  dsimp only
  constructor
  · intro hok
    rw [if_pos (by rw [hblen]; omega)]
    rw [hex]
    dsimp only
    rw [if_pos (by rw [hrest]; omega)]
    congr 1
    rw [List.drop_drop, Nat.add_comm]
  · intro hpanic
    by_cases hce : h.extras_len ≤ ((s.drop 24).take h.body_len).length
    · rw [if_pos hce, hex]
      dsimp only
      rw [if_neg (by rw [hrest]; omega)]
    · rw [if_neg hce]

/-- Witness for C10: a `Get` response stream with `extras_len = 0`,
`key_len = 1`, `body_len = 2` and body `[10, 20]` reads back as the
packet with key `[10]` and value `[20]`, consuming the whole stream. -/
theorem c10_witness :
    Packet.read_from [0x80, 0, 0, 1, 0, 0, 0, 0, 0, 0, 0, 2,
        0, 0, 0, 0, 0, 0, 0, 0, 0, 0, 0, 0, 10, 20] =
      .ok { header := { magic := .request, opcode := .get, key_len := 1,
                        extras_len := 0, data_type := 0,
                        vbucket_id_or_status := 0, body_len := 2,
                        opq := 0, cas := 0 },
            extras := Extras.none, key := [10], val := [20] } [] := by
  have h := c10_read_path_precondition
    [0x80, 0, 0, 1, 0, 0, 0, 0, 0, 0, 0, 2,
     0, 0, 0, 0, 0, 0, 0, 0, 0, 0, 0, 0, 10, 20]
    { magic := .request, opcode := .get, key_len := 1, extras_len := 0,
      data_type := 0, vbucket_id_or_status := 0, body_len := 2,
      opq := 0, cas := 0 }
    Extras.none (by decide) (by decide) (by decide)
  exact (h.1 (by decide)).trans (by decide)

/-- Counterexample to C10 as stated: a stream whose well-formed `Set`
header has `extras_len = 2`, `key_len = 10`, `body_len = 2` — so
`extras_len + key_len > body_len` — with the full body supplied, makes
`read_from` return an error (the two-byte extras region fails to parse
as `Store` before the key split is reached), not panic. -/
theorem c10_counterexample :
    PacketHeader.parse (List.take 24 [0x80, 0x01, 0, 10, 2, 0, 0, 0,
        0, 0, 0, 2, 0, 0, 0, 0, 0, 0, 0, 0, 0, 0, 0, 0, 0xAA, 0xBB]) =
      some { magic := .request, opcode := .set, key_len := 10,
             extras_len := 2, data_type := 0, vbucket_id_or_status := 0,
             body_len := 2, opq := 0, cas := 0 } ∧
      (2 : Nat) + 10 > 2 ∧
      Packet.read_from [0x80, 0x01, 0, 10, 2, 0, 0, 0, 0, 0, 0, 2,
        0, 0, 0, 0, 0, 0, 0, 0, 0, 0, 0, 0, 0xAA, 0xBB] = .err := by
  decide

end MProto
